import Mathlib

/-!
Shallow embedding of `sktime/transformers/detrend/_deseasonalise.py`
(the `Deseasonaliser` transformer).

Series values are modelled as rationals; a time index is modelled as a
list of integer positions (the source's index arithmetic `y.index[0] -
self._oh_index[0]` is assumed to yield an integer count of periodicity
unit steps, as the spec's open question records).  The external
collaborators (`seasonality_test`, `seasonal_decompose`,
`_check_is_fitted`) are not part of the source file; they are passed in
as function parameters, or modelled from the spec where noted.
-/

namespace Deseasonalise

/-- The combination model: `"additive"` or `"multiplicative"`. -/
inductive Model where
  | additive
  | multiplicative
deriving DecidableEq, Repr

/-- A univariate series: a time index (integer positions) and values.
Mirrors a pandas `Series`: `y.index` and the values, with
`y.shape[0] = values.length`. -/
structure Series where
  index : List ℤ
  values : List ℚ
deriving DecidableEq, Repr

/-- The instance state of a `Deseasonaliser` object: configuration set in
`__init__` (`sp`, `model`, `test_seasonality`) plus the mutable fields
`_oh_index`, `_seasonal`, `_is_seasonal` (all `None` at construction)
and the fitted flag `_is_fitted`. -/
structure Deseasonaliser where
  sp : ℕ
  model : Model
  test_seasonality : Bool
  oh_index : Option (List ℤ)
  seasonal : Option (List ℚ)
  is_seasonal : Option Bool
  is_fitted : Bool
deriving DecidableEq, Repr

/-- `Deseasonaliser.__init__(sp, model, test_seasonality)` after `check_sp`
and the model check succeed: stores the configuration and initialises
`_oh_index`, `_seasonal`, `_is_seasonal` to `None`; the base class sets
`_is_fitted` to false. -/
def construct (sp : ℕ) (model : Model) (test_seasonality : Bool) : Deseasonaliser :=
  { sp := sp, model := model, test_seasonality := test_seasonality,
    oh_index := none, seasonal := none, is_seasonal := none, is_fitted := false }

/-- `np.roll(a, shift)`: circular right rotation, `result[i] = a[(i - shift) mod n]`. -/
def np_roll (a : List ℚ) (shift : ℤ) : List ℚ :=
  (List.range a.length).map fun (i : ℕ) => a.getD ((((i : ℤ) - shift) % (a.length : ℤ)).toNat) 0

/-- `np.resize(a, n)`: repeat `a` cyclically to length `n`, `result[i] = a[i mod len(a)]`. -/
def np_resize (a : List ℚ) (n : ℕ) : List ℚ :=
  (List.range n).map fun i => a.getD (i % a.length) 0

/-- The shift computed in `Deseasonaliser._align_seasonal`:
`shift = -(y.index[0] - self._oh_index[0]) % self.sp`.  Python's `%` with a
positive modulus agrees with `Int.emod`. -/
def alignShift (d : Deseasonaliser) (y : Series) : ℤ :=
  (-(y.index.headI - (d.oh_index.getD []).headI)) % (d.sp : ℤ)

/-- `Deseasonaliser._align_seasonal(y)`:
`np.resize(np.roll(self._seasonal, shift=shift), y.shape[0])`. -/
def alignSeasonal (d : Deseasonaliser) (y : Series) : List ℚ :=
  np_resize (np_roll (d.seasonal.getD []) (alignShift d y)) y.values.length

/-- `Deseasonaliser._check_is_seasonal(y)`: sets `self._is_seasonal`.
The external `seasonality_test` is passed as `stest`. -/
def checkIsSeasonal (stest : Series → ℕ → Bool) (d : Deseasonaliser) (y : Series) :
    Deseasonaliser :=
  if d.sp = 1 then { d with is_seasonal := some false }
  else if d.test_seasonality then { d with is_seasonal := some (stest y d.sp) }
  else { d with is_seasonal := some true }

/-- `Deseasonaliser.fit(y)`.  The external `seasonal_decompose` is passed as
`dec`, returning the seasonal component of the decomposition, or `none`
when it raises (insufficient data).  The returned pair is the instance
state after the call together with a success flag: on `dec` failure the
exception propagates, so the state keeps the mutations already made
(`_oh_index` via `_set_oh_index`, `_is_seasonal` via `_check_is_seasonal`)
and `_is_fitted` is not assigned. -/
def fit (stest : Series → ℕ → Bool) (dec : Series → Model → ℕ → Option (List ℚ))
    (d : Deseasonaliser) (y : Series) : Deseasonaliser × Bool :=
  let d1 := { d with oh_index := some y.index }
  let d2 := checkIsSeasonal stest d1 y
  if d2.is_seasonal.getD false then
    match dec y d2.model d2.sp with
    | none => (d2, false)
    | some s => ({ d2 with seasonal := some (s.take d2.sp), is_fitted := true }, true)
  else
    ({ d2 with
        seasonal := some (if d2.model = Model.additive then
          List.replicate d2.sp (0 : ℚ) else List.replicate d2.sp (1 : ℚ)),
        is_fitted := true }, true)

/-- `Deseasonaliser._detrend(y, seasonal)`: `y - seasonal` (additive) or
`y / seasonal` (multiplicative), pointwise, keeping `y`'s index. -/
def detrend (d : Deseasonaliser) (y : Series) (seasonal : List ℚ) : Series :=
  match d.model with
  | Model.additive => { index := y.index, values := y.values.zipWith (· - ·) seasonal }
  | Model.multiplicative => { index := y.index, values := y.values.zipWith (· / ·) seasonal }

/-- `Deseasonaliser._retrend(y, seasonal)`: `y + seasonal` (additive) or
`y * seasonal` (multiplicative), pointwise, keeping `y`'s index. -/
def retrend (d : Deseasonaliser) (y : Series) (seasonal : List ℚ) : Series :=
  match d.model with
  | Model.additive => { index := y.index, values := y.values.zipWith (· + ·) seasonal }
  | Model.multiplicative => { index := y.index, values := y.values.zipWith (· * ·) seasonal }

/-- The error raised by the fitted-state guard. -/
inductive DError where
  | notFitted
deriving DecidableEq, Repr

/-- `Deseasonaliser.transform(y)`.  The guard `self._check_is_fitted()` is
modelled from the spec: the excluded base-lifecycle collaborator raises
the not-fitted error when `_is_fitted` is false, before any computation
on the input.  The returned pair is the (unmutated) instance state and
the result. -/
def transform (d : Deseasonaliser) (y : Series) : Deseasonaliser × Except DError Series :=
  if d.is_fitted then
    (d, Except.ok (detrend d y (alignSeasonal d y)))
  else
    (d, Except.error DError.notFitted)

/-- `Deseasonaliser.inverse_transform(y)`, with the same spec-modelled
fitted-state guard as `transform`. -/
def inverse_transform (d : Deseasonaliser) (y : Series) :
    Deseasonaliser × Except DError Series :=
  if d.is_fitted then
    (d, Except.ok (retrend d y (alignSeasonal d y)))
  else
    (d, Except.error DError.notFitted)

/-- Spec-side definition for the refinement claim about alignment:
circular right rotation of the stored cycle by `s` positions, written as
the spec describes it (a genuine circular rotation of the list). -/
def rotate_cycle (a : List ℚ) (s : ℕ) : List ℚ :=
  a.drop (a.length - s % a.length) ++ a.take (a.length - s % a.length)

/-- Spec-side definition for the refinement claim about alignment:
tile the `periodicity`-length pattern as many times as needed and
truncate to exactly length `n`. -/
def tile_to_length (a : List ℚ) (n : ℕ) : List ℚ :=
  (List.flatten (List.replicate ((n + a.length - 1) / a.length) a)).take n

/-! ### Basic lemmas about the numpy primitives -/

lemma np_roll_length (a : List ℚ) (s : ℤ) : (np_roll a s).length = a.length := by
  rw [np_roll, List.length_map, List.length_range]

lemma np_resize_length (a : List ℚ) (n : ℕ) : (np_resize a n).length = n := by
  rw [np_resize, List.length_map, List.length_range]

lemma np_resize_getD (a : List ℚ) (n i : ℕ) (h : i < n) :
    (np_resize a n).getD i 0 = a.getD (i % a.length) 0 := by
  rw [List.getD_eq_getElem _ _ (by rwa [np_resize_length])]
  simp only [np_resize, List.getElem_map, List.getElem_range]

lemma np_roll_getD (a : List ℚ) (s : ℤ) (i : ℕ) (h : i < a.length) :
    (np_roll a s).getD i 0 = a.getD ((((i : ℤ) - s) % (a.length : ℤ)).toNat) 0 := by
  rw [List.getD_eq_getElem _ _ (by rwa [np_roll_length])]
  simp only [np_roll, List.getElem_map, List.getElem_range]

lemma getD_mem (a : List ℚ) (k : ℕ) (h : k < a.length) : a.getD k 0 ∈ a := by
  rw [List.getD_eq_getElem _ _ h]
  exact List.getElem_mem h

/-- The index used by `np_roll` is in bounds for a nonempty list. -/
lemma roll_index_lt (a : List ℚ) (ha : a ≠ []) (s : ℤ) (i : ℕ) :
    ((((i : ℤ) - s) % (a.length : ℤ)).toNat) < a.length := by
  have hn : (0 : ℤ) < (a.length : ℤ) := by
    have := List.length_pos.mpr ha
    exact_mod_cast this
  have h1 := Int.emod_nonneg ((i : ℤ) - s) (by omega : (a.length : ℤ) ≠ 0)
  have h2 := Int.emod_lt_of_pos ((i : ℤ) - s) hn
  omega

lemma mem_np_roll (a : List ℚ) (ha : a ≠ []) (s : ℤ) (v : ℚ)
    (h : v ∈ np_roll a s) : v ∈ a := by
  rw [np_roll] at h
  rw [List.mem_map] at h
  obtain ⟨i, hi, rfl⟩ := h
  exact getD_mem a _ (roll_index_lt a ha s i)

/-! ### Tiling and rotation lemmas -/

lemma flatten_replicate_getD (a : List ℚ) (k i : ℕ) (h : i < k * a.length) :
    (List.flatten (List.replicate k a)).getD i 0 = a.getD (i % a.length) 0 := by
  induction k generalizing i with
  | zero => omega
  | succ k ih =>
    rw [List.replicate_succ, List.flatten_cons]
    by_cases hi : i < a.length
    · rw [List.getD_append _ _ _ _ hi, Nat.mod_eq_of_lt hi]
    · push_neg at hi
      rw [List.getD_append_right _ _ _ _ hi]
      have hlt : i - a.length < k * a.length := by
        rw [Nat.succ_mul] at h
        omega
      rw [ih (i - a.length) hlt]
      have hmod : (i - a.length) % a.length = i % a.length := by
        conv_rhs => rw [← Nat.sub_add_cancel hi]
        rw [Nat.add_mod_right]
      rw [hmod]

lemma flatten_replicate_length (a : List ℚ) (k : ℕ) :
    (List.flatten (List.replicate k a)).length = k * a.length := by
  rw [List.length_flatten, List.map_replicate, List.sum_replicate, smul_eq_mul]

lemma ceil_mul_le (n L : ℕ) (hL : 0 < L) : n ≤ (n + L - 1) / L * L := by
  have h1 := Nat.div_add_mod' (n + L - 1) L
  have h2 : (n + L - 1) % L < L := Nat.mod_lt _ hL
  omega

lemma tile_to_length_length (a : List ℚ) (ha : a ≠ []) (n : ℕ) :
    (tile_to_length a n).length = n := by
  have hL : 0 < a.length := List.length_pos.mpr ha
  rw [tile_to_length, List.length_take, flatten_replicate_length]
  exact Nat.min_eq_left (ceil_mul_le n a.length hL)

lemma tile_to_length_getD (a : List ℚ) (ha : a ≠ []) (n i : ℕ) (h : i < n) :
    (tile_to_length a n).getD i 0 = a.getD (i % a.length) 0 := by
  have hL : 0 < a.length := List.length_pos.mpr ha
  have hflat : i < (List.flatten (List.replicate ((n + a.length - 1) / a.length) a)).length := by
    rw [flatten_replicate_length]
    exact lt_of_lt_of_le h (ceil_mul_le n a.length hL)
  have htake : i <
      ((List.flatten (List.replicate ((n + a.length - 1) / a.length) a)).take n).length := by
    rw [List.length_take]
    omega
  rw [tile_to_length, List.getD_eq_getElem _ _ htake, List.getElem_take,
    ← List.getD_eq_getElem _ _ hflat,
    flatten_replicate_getD a _ i (by rwa [← flatten_replicate_length a])]

lemma rotate_cycle_length (a : List ℚ) (s : ℕ) :
    (rotate_cycle a s).length = a.length := by
  rw [rotate_cycle, List.length_append, List.length_drop, List.length_take]
  omega

lemma rotate_cycle_ne_nil (a : List ℚ) (ha : a ≠ []) (s : ℕ) :
    rotate_cycle a s ≠ [] := by
  intro h
  have := rotate_cycle_length a s
  rw [h] at this
  exact ha (List.length_eq_zero.mp this.symm)

lemma rotate_cycle_getD (a : List ℚ) (s j : ℕ) (hs : s < a.length) (hj : j < a.length) :
    (rotate_cycle a s).getD j 0 =
      if j < s then a.getD (a.length - s + j) 0 else a.getD (j - s) 0 := by
  have hdlen : (a.drop (a.length - s % a.length)).length = s := by
    rw [List.length_drop, Nat.mod_eq_of_lt hs]
    omega
  rw [rotate_cycle]
  by_cases hjs : j < s
  · rw [if_pos hjs, List.getD_append _ _ _ _ (by omega)]
    have hb : j < (a.drop (a.length - s % a.length)).length := by omega
    rw [List.getD_eq_getElem _ _ hb, List.getElem_drop,
      ← List.getD_eq_getElem a _ (by rw [Nat.mod_eq_of_lt hs]; omega)]
    rw [Nat.mod_eq_of_lt hs]
  · push_neg at hjs
    rw [if_neg (by omega), List.getD_append_right _ _ _ _ (by omega), hdlen]
    have hb : j - s < (a.take (a.length - s % a.length)).length := by
      rw [List.length_take, Nat.mod_eq_of_lt hs]
      omega
    rw [List.getD_eq_getElem _ _ hb, List.getElem_take,
      ← List.getD_eq_getElem a _ (by omega)]

/-- Core refinement: `np.resize(np.roll(c, z), len)` coincides with the
spec's rotate-then-tile description for any shift `z` in `[0, c.length)`. -/
lemma resize_roll_eq_tile_rotate (c : List ℚ) (hc : c ≠ []) (z : ℤ)
    (hz0 : 0 ≤ z) (hzlt : z < (c.length : ℤ)) (len : ℕ) :
    np_resize (np_roll c z) len = tile_to_length (rotate_cycle c z.toNat) len := by
  have hn : 0 < c.length := List.length_pos.mpr hc
  have hs : z.toNat < c.length := by omega
  have hrne : rotate_cycle c z.toNat ≠ [] := rotate_cycle_ne_nil c hc z.toNat
  apply List.ext_getElem
  · rw [np_resize_length, tile_to_length_length _ hrne]
  · intro i h1 h2
    rw [np_resize_length] at h1
    rw [← List.getD_eq_getElem _ 0, ← List.getD_eq_getElem _ 0]
    rw [np_resize_getD _ _ _ h1, tile_to_length_getD _ hrne _ _ h1]
    rw [np_roll_length, rotate_cycle_length]
    have hj : i % c.length < c.length := Nat.mod_lt i hn
    rw [np_roll_getD c z _ hj, rotate_cycle_getD c z.toNat _ hs hj]
    by_cases hcase : i % c.length < z.toNat
    · rw [if_pos hcase]
      have hmod : (((i % c.length : ℕ) : ℤ) - z) % (c.length : ℤ) =
          ((i % c.length : ℕ) : ℤ) - z + (c.length : ℤ) := by
        have hstep : (((i % c.length : ℕ) : ℤ) - z + (c.length : ℤ) * 1) % (c.length : ℤ) =
            (((i % c.length : ℕ) : ℤ) - z) % (c.length : ℤ) :=
          Int.add_mul_emod_self_left _ _ _
        rw [mul_one] at hstep
        rw [← hstep]
        exact Int.emod_eq_of_lt (by omega) (by omega)
      rw [hmod]
      congr 1
      omega
    · rw [if_neg hcase]
      push_neg at hcase
      have hmod : (((i % c.length : ℕ) : ℤ) - z) % (c.length : ℤ) =
          ((i % c.length : ℕ) : ℤ) - z :=
        Int.emod_eq_of_lt (by omega) (by omega)
      rw [hmod]
      congr 1
      omega

/-! ### Detrend/retrend round-trip lemmas -/

lemma zip_sub_add (v s : List ℚ) (h : v.length ≤ s.length) :
    (v.zipWith (· - ·) s).zipWith (· + ·) s = v := by
  induction v generalizing s with
  | nil => simp
  | cons a v ih =>
    cases s with
    | nil => simp at h
    | cons b s =>
      simp only [List.zipWith_cons_cons, sub_add_cancel, List.cons.injEq, true_and]
      exact ih s (by simpa using h)

lemma zip_div_mul (v s : List ℚ) (h : v.length ≤ s.length)
    (hnz : ∀ x ∈ s, x ≠ 0) :
    (v.zipWith (· / ·) s).zipWith (· * ·) s = v := by
  induction v generalizing s with
  | nil => simp
  | cons a v ih =>
    cases s with
    | nil => simp at h
    | cons b s =>
      have hb : b ≠ 0 := hnz b (List.mem_cons_self b s)
      simp only [List.zipWith_cons_cons, div_mul_cancel₀ a hb, List.cons.injEq, true_and]
      exact ih s (by simpa using h) (fun x hx => hnz x (List.mem_cons_of_mem b hx))

/-! ### Characterisations of `checkIsSeasonal` and `fit` -/

/-- The boolean value `_check_is_seasonal` stores into `self._is_seasonal`. -/
def seasonalDecision (stest : Series → ℕ → Bool) (d : Deseasonaliser) (y : Series) : Bool :=
  if d.sp = 1 then false else if d.test_seasonality then stest y d.sp else true

lemma checkIsSeasonal_spec (stest : Series → ℕ → Bool) (d : Deseasonaliser) (y : Series) :
    checkIsSeasonal stest d y = { d with is_seasonal := some (seasonalDecision stest d y) } := by
  rw [checkIsSeasonal, seasonalDecision]
  split_ifs <;> rfl

lemma fit_spec (stest : Series → ℕ → Bool) (dec : Series → Model → ℕ → Option (List ℚ))
    (d : Deseasonaliser) (y : Series) :
    fit stest dec d y =
      if seasonalDecision stest d y then
        match dec y d.model d.sp with
        | none =>
          ({ d with
              oh_index := some y.index,
              is_seasonal := some (seasonalDecision stest d y) }, false)
        | some s =>
          ({ d with
              oh_index := some y.index,
              is_seasonal := some (seasonalDecision stest d y),
              seasonal := some (s.take d.sp), is_fitted := true }, true)
      else
        ({ d with
            oh_index := some y.index,
            is_seasonal := some (seasonalDecision stest d y),
            seasonal := some (if d.model = Model.additive then List.replicate d.sp (0 : ℚ)
              else List.replicate d.sp (1 : ℚ)),
            is_fitted := true }, true) := by
  show (let d1 := { d with oh_index := some y.index }
        let d2 := checkIsSeasonal stest d1 y
        if d2.is_seasonal.getD false then
          match dec y d2.model d2.sp with
          | none => (d2, false)
          | some s => ({ d2 with seasonal := some (s.take d2.sp), is_fitted := true }, true)
        else
          ({ d2 with
              seasonal := some (if d2.model = Model.additive then
                List.replicate d2.sp (0 : ℚ) else List.replicate d2.sp (1 : ℚ)),
              is_fitted := true }, true)) = _
  have hd2 : checkIsSeasonal stest { d with oh_index := some y.index } y =
      { d with
          oh_index := some y.index,
          is_seasonal := some (seasonalDecision stest d y) } := by
    rw [checkIsSeasonal_spec]
    rfl
  simp only [hd2]
  rfl

/-! ### Neutral-cycle and index-preservation lemmas -/

lemma np_roll_singleton (v : ℚ) (s : ℤ) : np_roll [v] s = [v] := by
  simp [np_roll, Int.emod_one]

lemma np_resize_singleton (v : ℚ) (len : ℕ) : np_resize [v] len = List.replicate len v := by
  apply List.eq_replicate_iff.mpr
  constructor
  · exact np_resize_length [v] len
  · intro b hb
    rw [np_resize] at hb
    rw [List.mem_map] at hb
    obtain ⟨i, hi, rfl⟩ := hb
    have h1 : i % [v].length = 0 := Nat.mod_one i
    rw [h1]
    rfl

lemma zipWith_sub_replicate_zero (v : List ℚ) :
    v.zipWith (· - ·) (List.replicate v.length 0) = v := by
  induction v with
  | nil => rfl
  | cons a v ih => simp [List.replicate_succ, ih]

lemma zipWith_div_replicate_one (v : List ℚ) :
    v.zipWith (· / ·) (List.replicate v.length 1) = v := by
  induction v with
  | nil => rfl
  | cons a v ih => simp [List.replicate_succ, ih]

lemma detrend_index (d : Deseasonaliser) (y : Series) (s : List ℚ) :
    (detrend d y s).index = y.index := by
  cases hm : d.model <;> rw [detrend, hm]

lemma retrend_index (d : Deseasonaliser) (y : Series) (s : List ℚ) :
    (retrend d y s).index = y.index := by
  cases hm : d.model <;> rw [retrend, hm]

lemma mem_np_resize (a : List ℚ) (ha : a ≠ []) (n : ℕ) (v : ℚ)
    (h : v ∈ np_resize a n) : v ∈ a := by
  rw [np_resize] at h
  rw [List.mem_map] at h
  obtain ⟨i, hi, rfl⟩ := h
  exact getD_mem a _ (Nat.mod_lt i (List.length_pos.mpr ha))

lemma emod_toNat_lt (n : ℕ) (hn : 0 < n) (z : ℤ) : (z % (n : ℤ)).toNat < n := by
  have h1 := Int.emod_nonneg z (show ((n : ℤ)) ≠ 0 by omega)
  have h2 := Int.emod_lt_of_pos z (show (0 : ℤ) < (n : ℤ) by omega)
  omega

/-- Where an element of the cycle lands after `np_roll`: position `j`
moves to position `(j + shift) mod n`. -/
lemma np_roll_getD_position (a : List ℚ) (ha : a ≠ []) (s : ℤ) (j : ℕ) (hj : j < a.length) :
    (np_roll a s).getD ((((j : ℤ) + s) % (a.length : ℤ)).toNat) 0 = a.getD j 0 := by
  have hn : 0 < a.length := List.length_pos.mpr ha
  have hnz : ((a.length : ℤ)) ≠ 0 := by omega
  have hidx : (((j : ℤ) + s) % (a.length : ℤ)).toNat < a.length := emod_toNat_lt _ hn _
  rw [np_roll_getD a s _ hidx]
  congr 1
  have hcast : (((((j : ℤ) + s) % (a.length : ℤ)).toNat : ℤ)) = ((j : ℤ) + s) % (a.length : ℤ) :=
    Int.toNat_of_nonneg (Int.emod_nonneg _ hnz)
  rw [hcast]
  have hmod : (((j : ℤ) + s) % (a.length : ℤ) - s) % (a.length : ℤ) =
      ((j : ℤ) + s - s) % (a.length : ℤ) := by
    conv_lhs => rw [Int.sub_emod]
    conv_rhs => rw [Int.sub_emod]
    rw [Int.emod_emod_of_dvd _ dvd_rfl]
  rw [hmod, add_sub_cancel_right, Int.emod_eq_of_lt (by omega) (by omega)]
  omega

lemma transform_fitted (d : Deseasonaliser) (y : Series) (h : d.is_fitted = true) :
    transform d y = (d, Except.ok (detrend d y (alignSeasonal d y))) := by
  rw [transform, if_pos h]

lemma inverse_transform_fitted (d : Deseasonaliser) (y : Series) (h : d.is_fitted = true) :
    inverse_transform d y = (d, Except.ok (retrend d y (alignSeasonal d y))) := by
  rw [inverse_transform, if_pos h]

lemma alignSeasonal_singleton (d : Deseasonaliser) (v : ℚ) (hd : d.seasonal = some [v])
    (y : Series) : alignSeasonal d y = List.replicate y.values.length v := by
  rw [alignSeasonal, hd, Option.getD_some, np_roll_singleton, np_resize_singleton]

lemma detrend_additive (d : Deseasonaliser) (hm : d.model = Model.additive)
    (y : Series) (s : List ℚ) :
    detrend d y s = { index := y.index, values := y.values.zipWith (· - ·) s } := by
  rw [detrend, hm]

lemma detrend_multiplicative (d : Deseasonaliser) (hm : d.model = Model.multiplicative)
    (y : Series) (s : List ℚ) :
    detrend d y s = { index := y.index, values := y.values.zipWith (· / ·) s } := by
  rw [detrend, hm]

/-! ### Claim theorems -/

/-- C1: for every series `y` and seasonal vector `s` of the same length,
`retrend(detrend(y, s), s) == y` elementwise: under the additive model for
all `y` and `s`, and under the multiplicative model whenever every element
of `s` is nonzero. -/
theorem C1_detrend_retrend_roundtrip (d : Deseasonaliser) (y : Series) (s : List ℚ)
    (hlen : y.values.length = s.length)
    (hnz : d.model = Model.multiplicative → ∀ x ∈ s, x ≠ 0) :
    retrend d (detrend d y s) s = y := by
  cases y with
  | mk idx vals =>
    cases hm : d.model with
    | additive =>
      simp only [detrend, retrend, hm]
      exact congrArg (Series.mk idx) (zip_sub_add vals s (le_of_eq hlen))
    | multiplicative =>
      simp only [detrend, retrend, hm]
      exact congrArg (Series.mk idx) (zip_div_mul vals s (le_of_eq hlen) (hnz hm))

/-- C2: for every fitted instance and every query series, the aligned
seasonal vector equals the stored cycle circularly rotated by
`shift = (-(query_index[0] - fit_index[0])) mod periodicity` and then
tiled (repeated) and truncated to exactly the query series' length,
where index subtraction yields an integer position count. -/
theorem C2_align_is_rotate_then_tile (d : Deseasonaliser) (c : List ℚ) (fidx : List ℤ)
    (y : Series) (hc : d.seasonal = some c) (hlen : c.length = d.sp) (hsp : 0 < d.sp)
    (hoh : d.oh_index = some fidx) :
    alignShift d y = (-(y.index.headI - fidx.headI)) % (d.sp : ℤ) ∧
    alignSeasonal d y =
      tile_to_length (rotate_cycle c (alignShift d y).toNat) y.values.length := by
  have hcne : c ≠ [] := by
    intro hnil
    rw [hnil] at hlen
    simp only [List.length_nil] at hlen
    omega
  have hspz : ((d.sp : ℤ)) ≠ 0 := by
    have : (0 : ℤ) < (d.sp : ℤ) := by exact_mod_cast hsp
    omega
  refine ⟨by rw [alignShift, hoh, Option.getD_some], ?_⟩
  rw [alignSeasonal, hc, Option.getD_some]
  apply resize_roll_eq_tile_rotate c hcne _ (Int.emod_nonneg _ hspz) ?_ _
  rw [hlen]
  exact Int.emod_lt_of_pos _ (by exact_mod_cast hsp)

/-- Witness for C2 at a concrete fitted instance. -/
theorem C2_align_is_rotate_then_tile_witness :
    alignShift
        { sp := 3, model := Model.additive, test_seasonality := true,
          oh_index := some [0, 1, 2], seasonal := some [10, 20, 30],
          is_seasonal := some true, is_fitted := true } ⟨[1, 2, 3, 4], [0, 0, 0, 0]⟩ =
      (-((1 : ℤ) - 0)) % 3 ∧
    alignSeasonal
        { sp := 3, model := Model.additive, test_seasonality := true,
          oh_index := some [0, 1, 2], seasonal := some [10, 20, 30],
          is_seasonal := some true, is_fitted := true } ⟨[1, 2, 3, 4], [0, 0, 0, 0]⟩ =
      tile_to_length
        (rotate_cycle [10, 20, 30]
          (alignShift
            { sp := 3, model := Model.additive, test_seasonality := true,
              oh_index := some [0, 1, 2], seasonal := some [10, 20, 30],
              is_seasonal := some true, is_fitted := true }
            ⟨[1, 2, 3, 4], [0, 0, 0, 0]⟩).toNat) 4 :=
  C2_align_is_rotate_then_tile _ [10, 20, 30] [0, 1, 2] ⟨[1, 2, 3, 4], [0, 0, 0, 0]⟩
    rfl (by decide) (by decide) rfl

/-- C4: for every fitted instance with positive periodicity, the computed
alignment shift lies in `[0, sp)` for every query, and a query starting
exactly `sp` positions after the fit start yields shift `0` and the same
aligned seasonal vector (for equal query length) as a query starting at
the fit start itself. -/
theorem C4_shift_range_and_periodicity (d : Deseasonaliser) (hsp : 0 < d.sp) :
    (∀ y : Series, 0 ≤ alignShift d y ∧ alignShift d y < (d.sp : ℤ)) ∧
    (∀ (fidx : List ℤ) (q : Series), d.oh_index = some fidx →
      q.index.headI = fidx.headI + (d.sp : ℤ) →
      alignShift d q = 0 ∧
      alignSeasonal d q = alignSeasonal d ⟨fidx, q.values⟩) := by
  have hspz : ((d.sp : ℤ)) ≠ 0 := by
    have : (0 : ℤ) < (d.sp : ℤ) := by exact_mod_cast hsp
    omega
  have hsppos : (0 : ℤ) < (d.sp : ℤ) := by exact_mod_cast hsp
  constructor
  · intro y
    exact ⟨Int.emod_nonneg _ hspz, Int.emod_lt_of_pos _ hsppos⟩
  · intro fidx q hoh hq
    have hshift : alignShift d q = 0 := by
      rw [alignShift, hoh, Option.getD_some, hq]
      have : -(fidx.headI + (d.sp : ℤ) - fidx.headI) = -(d.sp : ℤ) := by ring
      rw [this]
      exact Int.emod_eq_zero_of_dvd (dvd_neg.mpr dvd_rfl)
    have hshift0 : alignShift d ⟨fidx, q.values⟩ = 0 := by
      rw [alignShift, hoh, Option.getD_some]
      rw [sub_self, neg_zero, Int.zero_emod]
    refine ⟨hshift, ?_⟩
    rw [alignSeasonal, alignSeasonal, hshift, hshift0]

/-- Witness for C4 at a concrete fitted instance. -/
theorem C4_shift_range_and_periodicity_witness :
    (0 ≤ alignShift
        { sp := 3, model := Model.additive, test_seasonality := true,
          oh_index := some [2, 3, 4], seasonal := some [10, 20, 30],
          is_seasonal := some true, is_fitted := true } ⟨[4], [7]⟩ ∧
      alignShift
        { sp := 3, model := Model.additive, test_seasonality := true,
          oh_index := some [2, 3, 4], seasonal := some [10, 20, 30],
          is_seasonal := some true, is_fitted := true } ⟨[4], [7]⟩ < (3 : ℤ)) ∧
    (alignShift
        { sp := 3, model := Model.additive, test_seasonality := true,
          oh_index := some [2, 3, 4], seasonal := some [10, 20, 30],
          is_seasonal := some true, is_fitted := true } ⟨[5], [7]⟩ = 0 ∧
      alignSeasonal
        { sp := 3, model := Model.additive, test_seasonality := true,
          oh_index := some [2, 3, 4], seasonal := some [10, 20, 30],
          is_seasonal := some true, is_fitted := true } ⟨[5], [7]⟩ =
      alignSeasonal
        { sp := 3, model := Model.additive, test_seasonality := true,
          oh_index := some [2, 3, 4], seasonal := some [10, 20, 30],
          is_seasonal := some true, is_fitted := true } ⟨[2, 3, 4], [7]⟩) :=
  ⟨(C4_shift_range_and_periodicity _ (by decide)).1 ⟨[4], [7]⟩,
    (C4_shift_range_and_periodicity _ (by decide)).2 [2, 3, 4] ⟨[5], [7]⟩ rfl (by decide)⟩

/-- Witness for C1 at a concrete multiplicative instance. -/
theorem C1_detrend_retrend_roundtrip_witness :
    retrend (construct 2 Model.multiplicative true)
      (detrend (construct 2 Model.multiplicative true) ⟨[0, 1], [3, 5]⟩ [2, 4]) [2, 4] =
      ⟨[0, 1], [3, 5]⟩ :=
  C1_detrend_retrend_roundtrip (construct 2 Model.multiplicative true)
    ⟨[0, 1], [3, 5]⟩ [2, 4] (by decide) (by decide)

/-- C5: the seasonality decision is false whenever `sp == 1` (regardless of
the test flag or data); true whenever `sp > 1` and `test_seasonality` is
false; and otherwise exactly the boolean returned by the external
seasonality test on `(series, sp)`. -/
theorem C5_seasonality_decision (stest : Series → ℕ → Bool) (d : Deseasonaliser) (y : Series) :
    (d.sp = 1 → (checkIsSeasonal stest d y).is_seasonal = some false) ∧
    (1 < d.sp → d.test_seasonality = false →
      (checkIsSeasonal stest d y).is_seasonal = some true) ∧
    (1 < d.sp → d.test_seasonality = true →
      (checkIsSeasonal stest d y).is_seasonal = some (stest y d.sp)) := by
  refine ⟨?_, ?_, ?_⟩
  · intro h1
    rw [checkIsSeasonal, if_pos h1]
  · intro h1 h2
    rw [checkIsSeasonal, if_neg (by omega), if_neg (by rw [h2]; exact Bool.false_ne_true)]
  · intro h1 h2
    rw [checkIsSeasonal, if_neg (by omega), if_pos h2]

/-- Witness for C5: all three branches at concrete instances. -/
theorem C5_seasonality_decision_witness :
    (checkIsSeasonal (fun _ _ => false) (construct 1 Model.additive true)
      ⟨[0], [1]⟩).is_seasonal = some false ∧
    (checkIsSeasonal (fun _ _ => false) (construct 2 Model.additive false)
      ⟨[0], [1]⟩).is_seasonal = some true ∧
    (checkIsSeasonal (fun _ _ => false) (construct 2 Model.additive true)
      ⟨[0], [1]⟩).is_seasonal = some ((fun _ _ => false) (⟨[0], [1]⟩ : Series) 2) :=
  ⟨(C5_seasonality_decision (fun _ _ => false) (construct 1 Model.additive true)
      ⟨[0], [1]⟩).1 rfl,
    (C5_seasonality_decision (fun _ _ => false) (construct 2 Model.additive false)
      ⟨[0], [1]⟩).2.1 (by decide) rfl,
    (C5_seasonality_decision (fun _ _ => false) (construct 2 Model.additive true)
      ⟨[0], [1]⟩).2.2 (by decide) rfl⟩

/-- C6: after every successful fit the stored seasonal cycle has length
exactly `sp`, regardless of the seasonality decision; and whenever the
decision is not-seasonal the cycle is all zeros (additive) or all ones
(multiplicative).  The hypothesis on `dec` is the documented contract of
the external `seasonal_decompose`: its seasonal component spans the whole
fit series, which must hold at least `sp` observations for extraction to
succeed. -/
theorem C6_fitted_cycle_length_and_neutral (stest : Series → ℕ → Bool)
    (dec : Series → Model → ℕ → Option (List ℚ)) (d : Deseasonaliser) (y : Series)
    (hdec : ∀ s, dec y d.model d.sp = some s → d.sp ≤ s.length)
    (hok : (fit stest dec d y).2 = true) :
    ∃ c, (fit stest dec d y).1.seasonal = some c ∧ c.length = d.sp ∧
      ((fit stest dec d y).1.is_seasonal = some false →
        c = (if d.model = Model.additive then List.replicate d.sp (0 : ℚ)
          else List.replicate d.sp (1 : ℚ))) := by
  rw [fit_spec] at hok ⊢
  by_cases hb : seasonalDecision stest d y = true
  · rw [if_pos hb] at hok ⊢
    cases hd : dec y d.model d.sp with
    | none =>
      rw [hd] at hok
      exact Bool.noConfusion hok
    | some s =>
      refine ⟨s.take d.sp, rfl, ?_, ?_⟩
      · rw [List.length_take]
        exact Nat.min_eq_left (hdec s hd)
      · intro hfalse
        have hdecision : seasonalDecision stest d y = false :=
          Option.some_injective _ hfalse
        rw [hb] at hdecision
        exact Bool.noConfusion hdecision
  · rw [if_neg hb] at hok ⊢
    exact ⟨_, rfl, by split_ifs <;> simp, fun _ => rfl⟩

/-- Witness for C6 at a concrete seasonal fit. -/
theorem C6_fitted_cycle_length_and_neutral_witness :
    ∃ c, (fit (fun _ _ => true) (fun _ _ _ => some [5, 6, 7, 8])
        (construct 2 Model.additive true) ⟨[0, 1, 2, 3], [1, 2, 3, 4]⟩).1.seasonal = some c ∧
      c.length = 2 ∧
      ((fit (fun _ _ => true) (fun _ _ _ => some [5, 6, 7, 8])
          (construct 2 Model.additive true) ⟨[0, 1, 2, 3], [1, 2, 3, 4]⟩).1.is_seasonal =
          some false →
        c = (if Model.additive = Model.additive then List.replicate 2 (0 : ℚ)
          else List.replicate 2 (1 : ℚ))) :=
  C6_fitted_cycle_length_and_neutral (fun _ _ => true) (fun _ _ _ => some [5, 6, 7, 8])
    (construct 2 Model.additive true) ⟨[0, 1, 2, 3], [1, 2, 3, 4]⟩
    (fun s hs => by injection hs with h; rw [← h]; decide) rfl

/-- C3 counterexample: on a fresh (unfitted) instance, a fit call that
fails with the insufficient-data error has already overwritten the stored
fit-index anchor and the is-seasonal flag, so they are not "unchanged from
before the call" as the claim states. -/
theorem C3_counterexample :
    (fit (fun _ _ => false) (fun _ _ _ => none) (construct 2 Model.additive false)
      ⟨[5], [1]⟩).2 = false ∧
    ¬ ((fit (fun _ _ => false) (fun _ _ _ => none) (construct 2 Model.additive false)
          ⟨[5], [1]⟩).1.oh_index = (construct 2 Model.additive false).oh_index ∧
        (fit (fun _ _ => false) (fun _ _ _ => none) (construct 2 Model.additive false)
          ⟨[5], [1]⟩).1.is_seasonal = (construct 2 Model.additive false).is_seasonal) := by
  decide

/-- C3 (amended): if fit fails with the insufficient-data error during
seasonal extraction, the stored seasonal cycle and the fitted flag are
unchanged (so a previously-unfitted instance remains unfitted), but the
fit-index anchor and the is-seasonal flag have already been overwritten
with the failing call's values (the anchor with the new series' index,
the flag with `true`, since extraction is only attempted when seasonal);
the configuration is untouched. -/
theorem C3_failed_fit_partial_state (stest : Series → ℕ → Bool)
    (dec : Series → Model → ℕ → Option (List ℚ)) (d : Deseasonaliser) (y : Series)
    (hfail : (fit stest dec d y).2 = false) :
    (fit stest dec d y).1.seasonal = d.seasonal ∧
    (fit stest dec d y).1.is_fitted = d.is_fitted ∧
    (fit stest dec d y).1.oh_index = some y.index ∧
    (fit stest dec d y).1.is_seasonal = some true ∧
    (fit stest dec d y).1.sp = d.sp ∧
    (fit stest dec d y).1.model = d.model ∧
    (fit stest dec d y).1.test_seasonality = d.test_seasonality := by
  rw [fit_spec] at hfail ⊢
  by_cases hb : seasonalDecision stest d y = true
  · rw [if_pos hb] at hfail ⊢
    cases hd : dec y d.model d.sp with
    | none =>
      exact ⟨rfl, rfl, rfl, congrArg some hb, rfl, rfl, rfl⟩
    | some s =>
      rw [hd] at hfail
      exact Bool.noConfusion hfail
  · rw [if_neg hb] at hfail
    exact Bool.noConfusion hfail

/-- Witness for C3's amended theorem at a concrete failing fit. -/
theorem C3_failed_fit_partial_state_witness :
    (fit (fun _ _ => true) (fun _ _ _ => none) (construct 3 Model.multiplicative false)
        ⟨[7], [2]⟩).1.seasonal = (construct 3 Model.multiplicative false).seasonal ∧
    (fit (fun _ _ => true) (fun _ _ _ => none) (construct 3 Model.multiplicative false)
        ⟨[7], [2]⟩).1.is_fitted = (construct 3 Model.multiplicative false).is_fitted ∧
    (fit (fun _ _ => true) (fun _ _ _ => none) (construct 3 Model.multiplicative false)
        ⟨[7], [2]⟩).1.oh_index = some [7] ∧
    (fit (fun _ _ => true) (fun _ _ _ => none) (construct 3 Model.multiplicative false)
        ⟨[7], [2]⟩).1.is_seasonal = some true ∧
    (fit (fun _ _ => true) (fun _ _ _ => none) (construct 3 Model.multiplicative false)
        ⟨[7], [2]⟩).1.sp = (construct 3 Model.multiplicative false).sp ∧
    (fit (fun _ _ => true) (fun _ _ _ => none) (construct 3 Model.multiplicative false)
        ⟨[7], [2]⟩).1.model = (construct 3 Model.multiplicative false).model ∧
    (fit (fun _ _ => true) (fun _ _ _ => none) (construct 3 Model.multiplicative false)
        ⟨[7], [2]⟩).1.test_seasonality =
      (construct 3 Model.multiplicative false).test_seasonality :=
  C3_failed_fit_partial_state (fun _ _ => true) (fun _ _ _ => none)
    (construct 3 Model.multiplicative false) ⟨[7], [2]⟩ rfl

/-- C7: an instance constructed with `periodicity == 1` and fitted on any
series satisfies `transform(series) == series` for every query series:
the neutral length-1 cycle makes detrending a no-op under either model. -/
theorem C7_sp_one_transform_is_identity (m : Model) (tflag : Bool)
    (stest : Series → ℕ → Bool) (dec : Series → Model → ℕ → Option (List ℚ))
    (y q : Series) :
    (transform (fit stest dec (construct 1 m tflag) y).1 q).2 = Except.ok q := by
  cases q with
  | mk qidx qvals =>
    cases m with
    | additive =>
      have hfit : fit stest dec (construct 1 Model.additive tflag) y =
          ({ sp := 1, model := Model.additive, test_seasonality := tflag,
             oh_index := some y.index, seasonal := some [(0 : ℚ)],
             is_seasonal := some false, is_fitted := true }, true) := by
        rw [fit_spec, if_neg (fun h => Bool.noConfusion h)]
        rfl
      rw [hfit, transform_fitted _ _ rfl,
        alignSeasonal_singleton _ (0 : ℚ) rfl ⟨qidx, qvals⟩,
        detrend_additive _ rfl ⟨qidx, qvals⟩]
      exact congrArg Except.ok (congrArg (Series.mk qidx) (zipWith_sub_replicate_zero qvals))
    | multiplicative =>
      have hfit : fit stest dec (construct 1 Model.multiplicative tflag) y =
          ({ sp := 1, model := Model.multiplicative, test_seasonality := tflag,
             oh_index := some y.index, seasonal := some [(1 : ℚ)],
             is_seasonal := some false, is_fitted := true }, true) := by
        rw [fit_spec, if_neg (fun h => Bool.noConfusion h)]
        rfl
      rw [hfit, transform_fitted _ _ rfl,
        alignSeasonal_singleton _ (1 : ℚ) rfl ⟨qidx, qvals⟩,
        detrend_multiplicative _ rfl ⟨qidx, qvals⟩]
      exact congrArg Except.ok (congrArg (Series.mk qidx) (zipWith_div_replicate_one qvals))

/-- C8: calling `transform` or `inverse_transform` on an unfitted instance
raises the not-fitted error and never returns a result. -/
theorem C8_not_fitted_error (d : Deseasonaliser) (y : Series) (h : d.is_fitted = false) :
    (transform d y).2 = Except.error DError.notFitted ∧
    (inverse_transform d y).2 = Except.error DError.notFitted := by
  constructor
  · rw [transform, if_neg (by rw [h]; exact Bool.false_ne_true)]
  · rw [inverse_transform, if_neg (by rw [h]; exact Bool.false_ne_true)]

/-- Witness for C8 on a freshly constructed (unfitted) instance. -/
theorem C8_not_fitted_error_witness :
    (transform (construct 1 Model.additive true) ⟨[0], [1]⟩).2 =
      Except.error DError.notFitted ∧
    (inverse_transform (construct 1 Model.additive true) ⟨[0], [1]⟩).2 =
      Except.error DError.notFitted :=
  C8_not_fitted_error (construct 1 Model.additive true) ⟨[0], [1]⟩ rfl

/-- C9: for every fitted instance, `transform` and `inverse_transform`
leave the whole stored state unchanged and the output series carries the
query series' own time index unchanged. -/
theorem C9_transform_preserves_state_and_index (d : Deseasonaliser) (y : Series)
    (h : d.is_fitted = true) :
    (transform d y).1 = d ∧ (inverse_transform d y).1 = d ∧
    ∃ r r', (transform d y).2 = Except.ok r ∧ r.index = y.index ∧
      (inverse_transform d y).2 = Except.ok r' ∧ r'.index = y.index := by
  rw [transform_fitted d y h, inverse_transform_fitted d y h]
  exact ⟨rfl, rfl, detrend d y (alignSeasonal d y), retrend d y (alignSeasonal d y),
    rfl, detrend_index d y _, rfl, retrend_index d y _⟩

/-- Witness for C9 at a concrete fitted instance. -/
theorem C9_transform_preserves_state_and_index_witness :
    (transform
        { sp := 2, model := Model.additive, test_seasonality := true,
          oh_index := some [0, 1], seasonal := some [1, 2],
          is_seasonal := some true, is_fitted := true } ⟨[3, 4], [5, 6]⟩).1 =
      { sp := 2, model := Model.additive, test_seasonality := true,
        oh_index := some [0, 1], seasonal := some [1, 2],
        is_seasonal := some true, is_fitted := true } ∧
    (inverse_transform
        { sp := 2, model := Model.additive, test_seasonality := true,
          oh_index := some [0, 1], seasonal := some [1, 2],
          is_seasonal := some true, is_fitted := true } ⟨[3, 4], [5, 6]⟩).1 =
      { sp := 2, model := Model.additive, test_seasonality := true,
        oh_index := some [0, 1], seasonal := some [1, 2],
        is_seasonal := some true, is_fitted := true } ∧
    ∃ r r',
      (transform
          { sp := 2, model := Model.additive, test_seasonality := true,
            oh_index := some [0, 1], seasonal := some [1, 2],
            is_seasonal := some true, is_fitted := true } ⟨[3, 4], [5, 6]⟩).2 =
        Except.ok r ∧ r.index = [3, 4] ∧
      (inverse_transform
          { sp := 2, model := Model.additive, test_seasonality := true,
            oh_index := some [0, 1], seasonal := some [1, 2],
            is_seasonal := some true, is_fitted := true } ⟨[3, 4], [5, 6]⟩).2 =
        Except.ok r' ∧ r'.index = [3, 4] :=
  C9_transform_preserves_state_and_index
    { sp := 2, model := Model.additive, test_seasonality := true,
      oh_index := some [0, 1], seasonal := some [1, 2],
      is_seasonal := some true, is_fitted := true } ⟨[3, 4], [5, 6]⟩ rfl

/-- C10: under the multiplicative model `transform` divides the input
elementwise by the aligned seasonal vector with no zero-value guard; when
every element of the stored cycle is nonzero every divisor is nonzero,
and when the stored cycle contains a zero the division branch is reached
with a zero divisor (for any query long enough — at least one full
cycle — to use the zero's position). -/
theorem C10_multiplicative_divisors (d : Deseasonaliser) (c : List ℚ) (y : Series)
    (hc : d.seasonal = some c) (hlen : c.length = d.sp) (hsp : 0 < d.sp) :
    (d.is_fitted = true → d.model = Model.multiplicative →
      (transform d y).2 =
        Except.ok ⟨y.index, y.values.zipWith (· / ·) (alignSeasonal d y)⟩) ∧
    ((∀ x ∈ c, x ≠ 0) → ∀ v ∈ alignSeasonal d y, v ≠ 0) ∧
    ((0 : ℚ) ∈ c → d.sp ≤ y.values.length → (0 : ℚ) ∈ alignSeasonal d y) := by
  have hcne : c ≠ [] := by
    intro hnil
    rw [hnil] at hlen
    simp only [List.length_nil] at hlen
    omega
  have hcpos : 0 < c.length := List.length_pos.mpr hcne
  have hrollne : np_roll c (alignShift d y) ≠ [] := by
    intro hnil
    have := np_roll_length c (alignShift d y)
    rw [hnil] at this
    simp only [List.length_nil] at this
    omega
  refine ⟨?_, ?_, ?_⟩
  · intro hfit hm
    rw [transform_fitted d y hfit, detrend_multiplicative d hm]
  · intro hnz v hv
    rw [alignSeasonal, hc, Option.getD_some] at hv
    exact hnz v (mem_np_roll c hcne _ v (mem_np_resize _ hrollne _ v hv))
  · intro h0 hlen2
    rw [alignSeasonal, hc, Option.getD_some]
    obtain ⟨j, hj, hj0⟩ := List.getElem_of_mem h0
    have hi0 : (((j : ℤ) + alignShift d y) % (c.length : ℤ)).toNat < c.length :=
      emod_toNat_lt _ hcpos _
    have hroll : (np_roll c (alignShift d y)).getD
        ((((j : ℤ) + alignShift d y) % (c.length : ℤ)).toNat) 0 = c.getD j 0 :=
      np_roll_getD_position c hcne _ j hj
    have hresize : (np_resize (np_roll c (alignShift d y)) y.values.length).getD
        ((((j : ℤ) + alignShift d y) % (c.length : ℤ)).toNat) 0 =
        (np_roll c (alignShift d y)).getD
          ((((j : ℤ) + alignShift d y) % (c.length : ℤ)).toNat) 0 := by
      rw [np_resize_getD _ _ _ (by omega)]
      congr 1
      rw [np_roll_length]
      exact Nat.mod_eq_of_lt hi0
    have hmem : (np_resize (np_roll c (alignShift d y)) y.values.length).getD
        ((((j : ℤ) + alignShift d y) % (c.length : ℤ)).toNat) 0 ∈
        np_resize (np_roll c (alignShift d y)) y.values.length :=
      getD_mem _ _ (by rw [np_resize_length]; omega)
    rw [hresize, hroll] at hmem
    rwa [List.getD_eq_getElem _ _ hj, hj0] at hmem

/-- Witness for C10 at a concrete fitted multiplicative instance whose
cycle contains a zero. -/
theorem C10_multiplicative_divisors_witness :
    (({ sp := 2, model := Model.multiplicative, test_seasonality := true,
          oh_index := some [0], seasonal := some [2, 0],
          is_seasonal := some true, is_fitted := true } : Deseasonaliser).is_fitted = true →
      ({ sp := 2, model := Model.multiplicative, test_seasonality := true,
          oh_index := some [0], seasonal := some [2, 0],
          is_seasonal := some true, is_fitted := true } : Deseasonaliser).model =
        Model.multiplicative →
      (transform
          { sp := 2, model := Model.multiplicative, test_seasonality := true,
            oh_index := some [0], seasonal := some [2, 0],
            is_seasonal := some true, is_fitted := true } ⟨[0, 1, 2], [4, 6, 8]⟩).2 =
        Except.ok ⟨[0, 1, 2],
          List.zipWith (· / ·) [4, 6, 8]
            (alignSeasonal
              { sp := 2, model := Model.multiplicative, test_seasonality := true,
                oh_index := some [0], seasonal := some [2, 0],
                is_seasonal := some true, is_fitted := true } ⟨[0, 1, 2], [4, 6, 8]⟩)⟩) ∧
    ((∀ x ∈ [(2 : ℚ), 0], x ≠ 0) →
      ∀ v ∈ alignSeasonal
          { sp := 2, model := Model.multiplicative, test_seasonality := true,
            oh_index := some [0], seasonal := some [2, 0],
            is_seasonal := some true, is_fitted := true } ⟨[0, 1, 2], [4, 6, 8]⟩, v ≠ 0) ∧
    ((0 : ℚ) ∈ [(2 : ℚ), 0] → 2 ≤ 3 →
      (0 : ℚ) ∈ alignSeasonal
          { sp := 2, model := Model.multiplicative, test_seasonality := true,
            oh_index := some [0], seasonal := some [2, 0],
            is_seasonal := some true, is_fitted := true } ⟨[0, 1, 2], [4, 6, 8]⟩) :=
  C10_multiplicative_divisors
    { sp := 2, model := Model.multiplicative, test_seasonality := true,
      oh_index := some [0], seasonal := some [2, 0],
      is_seasonal := some true, is_fitted := true } [(2 : ℚ), 0] ⟨[0, 1, 2], [4, 6, 8]⟩
    rfl (by decide) (by decide)

end Deseasonalise
